import Mathlib

/-!
Verification of the "Download as EML" IMAP operation.

Shallow embedding of `executeImapAction` from the repository source
(the dual-mode implementation, and the original single-message
implementation in `EmailDownload.ts`) together with theorems about its
input/output behaviour.

Modelling conventions:
- JavaScript byte buffers are `List Nat`; `Buffer.toString()` is
  `bufferToString` (a concrete byte-to-character decode).
- The host context and IMAP client are modelled by `ImapClient`, whose
  fields record the responses the external `imapflow` client gives to the
  calls the code makes: `mailboxOpen` (may throw), `fetchOne` (returns a
  message or nothing), and `fetch` (a finite stream of events, each either
  a delivered message or an error raised mid-stream).
- Thrown JavaScript errors are the `Except.error` branch of the result;
  `ImapError` enumerates the distinct error sites of the code.
- Node parameters arrive through `NodeParams`; `binaryPropertyName` is an
  `Option` because `getNodeParameter` is called with the fallback default
  `"data"`.
-/

namespace ImapEml

/-- Decode of a byte buffer to a string, modelling `Buffer.toString()`. -/
def bufferToString (b : List Nat) : String :=
  String.mk (b.map Char.ofNat)

/-- A staged binary payload, as produced by `context.helpers.prepareBinaryData`. -/
structure BinaryBlob where
  data : List Nat
  fileName : String
  mimeType : String
deriving Repr, DecidableEq

/-- Result of `client.fetchOne`: the message object exposes `uid` and an
optional `source` buffer (`FetchMessageObject.source` may be absent). -/
structure FetchedMessage where
  uid : Nat
  source : Option (List Nat)
deriving Repr, DecidableEq

/-- One output record (`INodeExecutionData`): a JSON field map, optional
binary field map, and the `pairedItem` index. -/
structure OutputRecord where
  json : List (String × String)
  binary : Option (List (String × BinaryBlob))
  pairedItem : Nat
deriving Repr, DecidableEq

/-- One step of the `client.fetch` async stream: either a delivered message
(with its `uid` and `source`, both requested by the fetch query) or an
error raised by the stream at that point. -/
inductive FetchEvent where
  | msg (uid : Nat) (source : List Nat)
  | err (e : String)
deriving Repr, DecidableEq

/-- The distinct failure outcomes of `executeImapAction`. -/
inductive ImapError where
  /-- `throw new Error('No email found with the specified UID')` -/
  | notFoundUid
  /-- `throw new Error('No emails found matching the search criteria.')` -/
  | notFoundSearch
  /-- an error propagated from the client (mailbox open or fetch stream) -/
  | clientError (msg : String)
  /-- a JavaScript TypeError from dereferencing an absent value
  (reachable only in the original implementation, which has no checks) -/
  | typeError
deriving Repr, DecidableEq

/-- The structured search filter built by `getEmailSearchParametersFromNode`
(sender / subject / date / flags fields); opaque to this operation, which
only passes it to `client.fetch`. -/
def SearchObject : Type := List (String × String)

instance : DecidableEq SearchObject := by
  unfold SearchObject
  infer_instance

/-- The node parameters the operation reads from the host context.
`binaryPropertyName` is `none` when the parameter is not supplied (the code
reads it with fallback default `'data'`). -/
structure NodeParams where
  mailboxPath : String
  emailUid : String
  outputToBinary : Bool
  binaryPropertyName : Option String
  searchCriteria : SearchObject

/-- The environment: responses of the external IMAP client to the three
calls the code makes. `mailboxOpenError` is `some e` when
`client.mailboxOpen` throws `e`; `fetchOne` maps the UID string to the
returned message (or nothing); `fetch` maps a search object to the finite
event stream the client delivers. -/
structure ImapClient where
  mailboxOpenError : Option ImapError
  fetchOne : String → Option FetchedMessage
  fetch : SearchObject → List FetchEvent

/-- `context.helpers.prepareBinaryData(source, fileName, mimeType)`. -/
def prepareBinaryData (source : List Nat) (fileName mimeType : String) : BinaryBlob :=
  { data := source, fileName := fileName, mimeType := mimeType }

/-- Shaping of one output record, mirroring the duplicated per-message
body of `executeImapAction` (lines 150-166 on the single-UID path and
174-191 on the bulk path of `src/unnamed/part_000`): in binary mode stage
`source` under `binaryPropertyName` with name `mailboxPath + '_' + uidStr
+ '.eml'` and type `message/rfc822`, leaving `jsonData` as the empty `{}`;
otherwise put `source.toString()` under `emlContent` and leave `binary`
undefined. `uidStr` is whatever string the code concatenates at that call
site (`emailUid` on the single-UID path, `email.uid` on the bulk path). -/
def shapeRecord (outputToBinary : Bool) (binaryPropertyName mailboxPath uidStr : String)
    (source : List Nat) (itemIndex : Nat) : OutputRecord :=
  if outputToBinary then
    { json := [],
      binary := some [(binaryPropertyName,
        prepareBinaryData source (mailboxPath ++ "_" ++ uidStr ++ ".eml") "message/rfc822")],
      pairedItem := itemIndex }
  else
    { json := [("emlContent", bufferToString source)],
      binary := none,
      pairedItem := itemIndex }

/-- The `for await (const email of client.fetch(searchObject, query))` loop
(lines 172-192 of `src/unnamed/part_000`): each delivered message is shaped
into a record appended to `results` in delivery order; an error raised by
the stream propagates and the whole invocation fails, discarding the
records accumulated so far. -/
def runFetchLoop (outputToBinary : Bool) (binaryPropertyName mailboxPath : String)
    (itemIndex : Nat) : List FetchEvent → Except ImapError (List OutputRecord)
  | [] => Except.ok []
  | FetchEvent.msg uid source :: rest =>
    match runFetchLoop outputToBinary binaryPropertyName mailboxPath itemIndex rest with
    | Except.error e => Except.error e
    | Except.ok rs =>
      Except.ok (shapeRecord outputToBinary binaryPropertyName mailboxPath
        (toString uid) source itemIndex :: rs)
  | FetchEvent.err e :: _ => Except.error (ImapError.clientError e)

/-- `executeImapAction` of the dual-mode implementation
(`src/unnamed/part_000`, lines 129-198). Opens the mailbox read-only,
reads `emailUid`, `outputToBinary` and `binaryPropertyName` (default
`'data'`); a non-empty (truthy) `emailUid` selects the single-message
path (`fetchOne`, throwing when no message or no `source` comes back),
an empty one the bulk path (the fetch loop over
`getEmailSearchParametersFromNode`, throwing when no message was
yielded). -/
def executeImapAction (p : NodeParams) (itemIndex : Nat) (client : ImapClient) :
    Except ImapError (List OutputRecord) :=
  match client.mailboxOpenError with
  | some e => Except.error e
  | none =>
    let binaryPropertyName := p.binaryPropertyName.getD "data"
    if p.emailUid ≠ "" then
      match client.fetchOne p.emailUid with
      | none => Except.error ImapError.notFoundUid
      | some emailInfo =>
        match emailInfo.source with
        | none => Except.error ImapError.notFoundUid
        | some src =>
          Except.ok [shapeRecord p.outputToBinary binaryPropertyName p.mailboxPath
            p.emailUid src itemIndex]
    else
      match runFetchLoop p.outputToBinary binaryPropertyName p.mailboxPath itemIndex
          (client.fetch p.searchCriteria) with
      | Except.error e => Except.error e
      | Except.ok rs =>
        if rs.isEmpty then Except.error ImapError.notFoundSearch else Except.ok rs

/-- `executeImapAction` of the original implementation
(`src/nodes/Imap/operations/email/functions/EmailDownload.ts`, lines
128-170): always the single-message path; `fetchOne`'s result is used
without a null check, so an absent message or absent `source` raises a
JavaScript TypeError at the `emailInfo.source` dereference. -/
def executeImapActionOriginal (p : NodeParams) (itemIndex : Nat) (client : ImapClient) :
    Except ImapError (List OutputRecord) :=
  match client.mailboxOpenError with
  | some e => Except.error e
  | none =>
    let binaryPropertyName := p.binaryPropertyName.getD "data"
    match client.fetchOne p.emailUid with
    | none => Except.error ImapError.typeError
    | some emailInfo =>
      match emailInfo.source with
      | none => Except.error ImapError.typeError
      | some src =>
        Except.ok [shapeRecord p.outputToBinary binaryPropertyName p.mailboxPath
          p.emailUid src itemIndex]

/-- The declaration of the `binaryPropertyName` node parameter
(`src/unnamed/part_000`, lines 114-127): `required: true`, default
`'data'`, displayed only when `outputToBinary` is `true`. Enforcement of
`required` is the host framework's, not this code's. -/
structure ParameterDef where
  name : String
  required : Bool
  defaultValue : String
  displayedWhenOutputToBinary : Bool
deriving Repr, DecidableEq

def binaryPropertyNameParam : ParameterDef :=
  { name := "binaryPropertyName"
    required := true
    defaultValue := "data"
    displayedWhenOutputToBinary := true }

/-! ## Concrete requests and clients used to evaluate the theorems -/

/-- A bulk-path request (empty `emailUid`), text output mode. -/
def bulkTextParams : NodeParams :=
  { mailboxPath := "INBOX"
    emailUid := ""
    outputToBinary := false
    binaryPropertyName := some "data"
    searchCriteria := [("seen", "true")] }

/-- A client whose fetch stream delivers the messages with uids 5 and 9. -/
def twoMessageClient : ImapClient :=
  { mailboxOpenError := none
    fetchOne := fun _ => none
    fetch := fun _ => [FetchEvent.msg 5 [104, 105], FetchEvent.msg 9 [33]] }

/-- A single-message request for uid `"42"`, binary output mode. -/
def singleBinaryParams : NodeParams :=
  { mailboxPath := "INBOX"
    emailUid := "42"
    outputToBinary := true
    binaryPropertyName := some "data"
    searchCriteria := [] }

/-- The same request with different search criteria (everything else equal). -/
def singleBinaryParamsAlt : NodeParams :=
  { singleBinaryParams with searchCriteria := [("from", "alice@example.com")] }

/-- A client resolving uid `"42"` to a message with raw source bytes, whose
fetch stream is empty. -/
def singleMessageClient : ImapClient :=
  { mailboxOpenError := none
    fetchOne := fun u =>
      if u = "42" then some { uid := 42, source := some [70, 114] } else none
    fetch := fun _ => [] }

/-- A single-message request with the non-canonical uid string `"042"`. -/
def paddedUidParams : NodeParams :=
  { mailboxPath := "INBOX"
    emailUid := "042"
    outputToBinary := true
    binaryPropertyName := some "data"
    searchCriteria := [] }

/-- A client resolving the uid string `"042"` to the message whose UID is
the number 42. -/
def paddedUidClient : ImapClient :=
  { mailboxOpenError := none
    fetchOne := fun u =>
      if u = "042" then some { uid := 42, source := some [65] } else none
    fetch := fun _ => [] }

/-- A binary-mode request with no `binaryPropertyName` supplied. -/
def missingFieldParams : NodeParams :=
  { mailboxPath := "INBOX"
    emailUid := "42"
    outputToBinary := true
    binaryPropertyName := none
    searchCriteria := [] }

/-- A client whose fetch stream delivers one message and then raises an
error. -/
def errorStreamClient : ImapClient :=
  { mailboxOpenError := none
    fetchOne := fun _ => none
    fetch := fun _ => [FetchEvent.msg 5 [104], FetchEvent.err "connection reset"] }

/-! ## Helper lemmas about the fetch loop -/

/-- `shapeRecord` pairs every record to the invocation's item index. -/
theorem shapeRecord_pairedItem (ob : Bool) (bpn mbox u : String) (s : List Nat) (idx : Nat) :
    (shapeRecord ob bpn mbox u s idx).pairedItem = idx := by
  unfold shapeRecord
  split <;> rfl

/-- A stream that delivers exactly the messages `msgs` (no error event)
makes the loop succeed with one shaped record per message, in delivery
order. -/
theorem runFetchLoop_all_msgs (ob : Bool) (bpn mbox : String) (idx : Nat)
    (msgs : List (Nat × List Nat)) :
    runFetchLoop ob bpn mbox idx (msgs.map fun m => FetchEvent.msg m.1 m.2) =
      Except.ok (msgs.map fun m => shapeRecord ob bpn mbox (toString m.1) m.2 idx) := by
  induction msgs with
  | nil => rfl
  | cons m rest ih => simp [runFetchLoop, ih]

/-- A stream that raises an error after delivering some messages makes the
loop fail with that error, whatever came before or after. -/
theorem runFetchLoop_err_event (ob : Bool) (bpn mbox : String) (idx : Nat)
    (ms : List (Nat × List Nat)) (e : String) (rest : List FetchEvent) :
    runFetchLoop ob bpn mbox idx
        ((ms.map fun m => FetchEvent.msg m.1 m.2) ++ FetchEvent.err e :: rest) =
      Except.error (ImapError.clientError e) := by
  induction ms with
  | nil => rfl
  | cons m t ih => simp [runFetchLoop, ih]

/-- Every record of a successful loop run is the shape of some message the
stream delivered. -/
theorem runFetchLoop_ok_shape (ob : Bool) (bpn mbox : String) (idx : Nat) :
    ∀ evs rs, runFetchLoop ob bpn mbox idx evs = Except.ok rs →
      ∀ r ∈ rs, ∃ u s, FetchEvent.msg u s ∈ evs ∧
        r = shapeRecord ob bpn mbox (toString u) s idx := by
  intro evs
  induction evs with
  | nil =>
    intro rs hok r hr
    simp only [runFetchLoop, Except.ok.injEq] at hok
    subst hok
    simp at hr
  | cons ev rest ih =>
    intro rs hok r hr
    cases ev with
    | msg u s =>
      simp only [runFetchLoop] at hok
      cases hrec : runFetchLoop ob bpn mbox idx rest with
      | error e => rw [hrec] at hok; exact absurd hok (by simp)
      | ok rs0 =>
        rw [hrec] at hok
        simp only [Except.ok.injEq] at hok
        subst hok
        rcases List.mem_cons.mp hr with h | h
        · exact ⟨u, s, by simp, h⟩
        · obtain ⟨u0, s0, hmem, hshape⟩ := ih rs0 hrec r h
          exact ⟨u0, s0, by simp [hmem], hshape⟩
    | err e =>
      simp only [runFetchLoop] at hok
      exact absurd hok (by simp)

/-- Every record of any successful invocation is a `shapeRecord` with the
parameters' output mode, binary field name and mailbox path; its uid
string is the `emailUid` parameter on the single-message path, and the
string of a uid the fetch stream delivered (together with that message's
source) on the bulk path. -/
theorem executeImapAction_ok_shape (p : NodeParams) (idx : Nat) (c : ImapClient)
    (rs : List OutputRecord) (hok : executeImapAction p idx c = Except.ok rs) :
    ∀ r ∈ rs, ∃ uidStr src,
      r = shapeRecord p.outputToBinary (p.binaryPropertyName.getD "data") p.mailboxPath
            uidStr src idx ∧
      (p.emailUid ≠ "" → uidStr = p.emailUid) ∧
      (p.emailUid = "" → ∃ u : Nat, uidStr = toString u ∧
        FetchEvent.msg u src ∈ c.fetch p.searchCriteria) := by
  intro r hr
  unfold executeImapAction at hok
  cases hopen : c.mailboxOpenError with
  | some e => rw [hopen] at hok; exact absurd hok (by simp)
  | none =>
    rw [hopen] at hok
    simp only at hok
    by_cases huid : p.emailUid = ""
    · rw [if_neg (by simp [huid])] at hok
      cases hloop : runFetchLoop p.outputToBinary (p.binaryPropertyName.getD "data")
          p.mailboxPath idx (c.fetch p.searchCriteria) with
      | error e => rw [hloop] at hok; exact absurd hok (by simp)
      | ok rs0 =>
        rw [hloop] at hok
        simp only at hok
        by_cases hemp : rs0.isEmpty
        · rw [if_pos hemp] at hok; exact absurd hok (by simp)
        · rw [if_neg hemp] at hok
          simp only [Except.ok.injEq] at hok
          subst hok
          obtain ⟨u, s, hmem, hshape⟩ :=
            runFetchLoop_ok_shape _ _ _ _ _ _ hloop r hr
          exact ⟨toString u, s, hshape, fun h => absurd huid h,
            fun _ => ⟨u, rfl, hmem⟩⟩
    · rw [if_pos huid] at hok
      cases hone : c.fetchOne p.emailUid with
      | none => rw [hone] at hok; exact absurd hok (by simp)
      | some emailInfo =>
        rw [hone] at hok
        simp only at hok
        cases hsrc : emailInfo.source with
        | none => rw [hsrc] at hok; exact absurd hok (by simp)
        | some src =>
          rw [hsrc] at hok
          simp only [Except.ok.injEq] at hok
          subst hok
          simp only [List.mem_singleton] at hr
          exact ⟨p.emailUid, src, hr, fun _ => rfl, fun h => absurd h huid⟩

/-! ## Claim theorems -/

/-- **C1.** For every request with an empty `messageId` whose search-driven
fetch yields `N ≥ 1` messages, `executeImapAction` returns exactly `N`
output records, one per fetched message, in the order the fetch stream
delivers them, and every record's `pairedItem` equals the invocation's
input item index. -/
theorem C1_bulk_one_record_per_message (p : NodeParams) (idx : Nat) (c : ImapClient)
    (msgs : List (Nat × List Nat))
    (hopen : c.mailboxOpenError = none)
    (huid : p.emailUid = "")
    (hstream : c.fetch p.searchCriteria = msgs.map fun m => FetchEvent.msg m.1 m.2)
    (hN : msgs ≠ []) :
    executeImapAction p idx c =
      Except.ok (msgs.map fun m =>
        shapeRecord p.outputToBinary (p.binaryPropertyName.getD "data") p.mailboxPath
          (toString m.1) m.2 idx) ∧
    (msgs.map fun m =>
      shapeRecord p.outputToBinary (p.binaryPropertyName.getD "data") p.mailboxPath
        (toString m.1) m.2 idx).length = msgs.length ∧
    ∀ r ∈ (msgs.map fun m =>
      shapeRecord p.outputToBinary (p.binaryPropertyName.getD "data") p.mailboxPath
        (toString m.1) m.2 idx), r.pairedItem = idx := by
  refine ⟨?_, by simp, ?_⟩
  · unfold executeImapAction
    rw [hopen]
    simp only
    rw [if_neg (by simp [huid]), hstream, runFetchLoop_all_msgs]
    simp only
    rw [if_neg (by simp [List.map_eq_nil_iff, hN])]
  · intro r hr
    obtain ⟨m, hm, hr⟩ := List.mem_map.mp hr
    rw [← hr]
    exact shapeRecord_pairedItem _ _ _ _ _ _

/-- Witness for C1: the client delivering uids 5 and 9 yields exactly two
records in delivery order. -/
theorem C1_bulk_one_record_per_message_witness :
    twoMessageClient.mailboxOpenError = none ∧
    bulkTextParams.emailUid = "" ∧
    twoMessageClient.fetch bulkTextParams.searchCriteria =
      ([(5, [104, 105]), (9, [33])] : List (Nat × List Nat)).map
        (fun m => FetchEvent.msg m.1 m.2) ∧
    executeImapAction bulkTextParams 0 twoMessageClient =
      Except.ok (([(5, [104, 105]), (9, [33])] : List (Nat × List Nat)).map fun m =>
        shapeRecord bulkTextParams.outputToBinary
          (bulkTextParams.binaryPropertyName.getD "data") bulkTextParams.mailboxPath
          (toString m.1) m.2 0) :=
  ⟨rfl, rfl, rfl,
    (C1_bulk_one_record_per_message bulkTextParams 0 twoMessageClient
      [(5, [104, 105]), (9, [33])] rfl rfl rfl (by simp)).1⟩

/-- **C2.** For every request with a non-empty `messageId`,
`executeImapAction` fetches exactly one message by that identifier and
returns at most one record; it fails with the not-found error when the
client returns no matching message or a message with no raw source
content, so a 0-record outcome occurs only via that thrown error. -/
theorem C2_single_uid_at_most_one (p : NodeParams) (idx : Nat) (c : ImapClient)
    (hopen : c.mailboxOpenError = none)
    (huid : p.emailUid ≠ "") :
    (executeImapAction p idx c = Except.error ImapError.notFoundUid ∧
      (c.fetchOne p.emailUid = none ∨
        ∃ m, c.fetchOne p.emailUid = some m ∧ m.source = none)) ∨
    (∃ m src, c.fetchOne p.emailUid = some m ∧ m.source = some src ∧
      executeImapAction p idx c =
        Except.ok [shapeRecord p.outputToBinary (p.binaryPropertyName.getD "data")
          p.mailboxPath p.emailUid src idx]) := by
  unfold executeImapAction
  rw [hopen]
  simp only
  rw [if_pos huid]
  cases hone : c.fetchOne p.emailUid with
  | none => exact Or.inl ⟨rfl, Or.inl rfl⟩
  | some m =>
    cases hsrc : m.source with
    | none => exact Or.inl ⟨by simp [hsrc], Or.inr ⟨m, rfl, hsrc⟩⟩
    | some src => exact Or.inr ⟨m, src, rfl, hsrc, by simp [hsrc]⟩

/-- Witness for C2: the client holding uid 42 returns a single record. -/
theorem C2_single_uid_at_most_one_witness :
    singleMessageClient.mailboxOpenError = none ∧
    singleBinaryParams.emailUid ≠ "" ∧
    ((executeImapAction singleBinaryParams 0 singleMessageClient =
        Except.error ImapError.notFoundUid ∧
      (singleMessageClient.fetchOne singleBinaryParams.emailUid = none ∨
        ∃ m, singleMessageClient.fetchOne singleBinaryParams.emailUid = some m ∧
          m.source = none)) ∨
    (∃ m src, singleMessageClient.fetchOne singleBinaryParams.emailUid = some m ∧
      m.source = some src ∧
      executeImapAction singleBinaryParams 0 singleMessageClient =
        Except.ok [shapeRecord singleBinaryParams.outputToBinary
          (singleBinaryParams.binaryPropertyName.getD "data")
          singleBinaryParams.mailboxPath singleBinaryParams.emailUid src 0])) :=
  ⟨rfl, by simp [singleBinaryParams],
    C2_single_uid_at_most_one singleBinaryParams 0 singleMessageClient rfl
      (by simp [singleBinaryParams])⟩

/-- **C3.** For every request with an empty `messageId` whose search yields
zero matching messages, `executeImapAction` raises the not-found error and
returns no records; it never returns an empty list as a silent success. -/
theorem C3_empty_search_not_found (p : NodeParams) (idx : Nat) (c : ImapClient)
    (hopen : c.mailboxOpenError = none)
    (huid : p.emailUid = "")
    (hstream : c.fetch p.searchCriteria = []) :
    executeImapAction p idx c = Except.error ImapError.notFoundSearch := by
  unfold executeImapAction
  rw [hopen]
  simp only
  rw [if_neg (by simp [huid]), hstream]
  rfl

/-- Witness for C3: an empty fetch stream makes the invocation fail. -/
theorem C3_empty_search_not_found_witness :
    singleMessageClient.mailboxOpenError = none ∧
    bulkTextParams.emailUid = "" ∧
    singleMessageClient.fetch bulkTextParams.searchCriteria = [] ∧
    executeImapAction bulkTextParams 0 singleMessageClient =
      Except.error ImapError.notFoundSearch :=
  ⟨rfl, rfl, rfl,
    C3_empty_search_not_found bulkTextParams 0 singleMessageClient rfl rfl rfl⟩

/-- **C4.** Every output record of a successful invocation, in either
mode, populates exactly one payload area: in binary mode the record has a
binary field keyed by the configured `binaryPropertyName` and an empty
JSON field map; in text mode it has a populated `emlContent` JSON field
(the decoded raw source) and no binary fields. -/
theorem C4_output_mode_invariant (p : NodeParams) (idx : Nat) (c : ImapClient)
    (rs : List OutputRecord) (hok : executeImapAction p idx c = Except.ok rs) :
    ∀ r ∈ rs,
      (p.outputToBinary = true →
        r.json = [] ∧
        ∃ blob, r.binary = some [(p.binaryPropertyName.getD "data", blob)]) ∧
      (p.outputToBinary = false →
        (∃ src, r.json = [("emlContent", bufferToString src)]) ∧ r.binary = none) := by
  intro r hr
  obtain ⟨uidStr, src, hshape, -, -⟩ := executeImapAction_ok_shape p idx c rs hok r hr
  subst hshape
  constructor
  · intro hb
    rw [hb]
    exact ⟨rfl,
      prepareBinaryData src (p.mailboxPath ++ "_" ++ uidStr ++ ".eml") "message/rfc822",
      rfl⟩
  · intro hb
    rw [hb]
    exact ⟨⟨src, rfl⟩, rfl⟩

/-- Witness for C4: the two text-mode records of the uid-5/uid-9 run
both carry only the `emlContent` JSON field. -/
theorem C4_output_mode_invariant_witness :
    executeImapAction bulkTextParams 0 twoMessageClient =
      Except.ok [shapeRecord false "data" "INBOX" "5" [104, 105] 0,
        shapeRecord false "data" "INBOX" "9" [33] 0] ∧
    ∀ r ∈ [shapeRecord false "data" "INBOX" "5" [104, 105] 0,
        shapeRecord false "data" "INBOX" "9" [33] 0],
      (bulkTextParams.outputToBinary = true →
        r.json = [] ∧
        ∃ blob, r.binary = some [(bulkTextParams.binaryPropertyName.getD "data", blob)]) ∧
      (bulkTextParams.outputToBinary = false →
        (∃ src, r.json = [("emlContent", bufferToString src)]) ∧ r.binary = none) :=
  ⟨rfl,
    C4_output_mode_invariant bulkTextParams 0 twoMessageClient
      [shapeRecord false "data" "INBOX" "5" [104, 105] 0,
        shapeRecord false "data" "INBOX" "9" [33] 0] rfl⟩

/-- **C5 counterexample.** On the single-message path the staged filename
concatenates the `emailUid` parameter string, not the fetched message's
UID: with uid string `"042"` the client returns the message whose UID is
42, yet the filename is `INBOX_042.eml`, not
`mailboxPath ++ "_" ++ toString uid ++ ".eml" = INBOX_42.eml`. -/
theorem C5_counterexample :
    paddedUidClient.fetchOne paddedUidParams.emailUid =
      some { uid := 42, source := some [65] } ∧
    executeImapAction paddedUidParams 0 paddedUidClient =
      Except.ok [shapeRecord true "data" "INBOX" "042" [65] 0] ∧
    (shapeRecord true "data" "INBOX" "042" [65] 0).binary =
      some [("data", prepareBinaryData [65] "INBOX_042.eml" "message/rfc822")] ∧
    "INBOX_042.eml" ≠ "INBOX" ++ "_" ++ toString (42 : Nat) ++ ".eml" :=
  ⟨rfl, rfl, rfl, by decide⟩

/-- **C5 amended.** For every record produced in binary mode, the staged
blob's media type is `message/rfc822` and its filename equals
`mailboxPath ++ "_" ++ uidStr ++ ".eml"`, where `uidStr` is the supplied
`emailUid` parameter string on the single-message path and the decimal
string of the delivered message's UID on the bulk path. -/
theorem C5_amended_filename (p : NodeParams) (idx : Nat) (c : ImapClient)
    (rs : List OutputRecord)
    (hb : p.outputToBinary = true)
    (hok : executeImapAction p idx c = Except.ok rs) :
    ∀ r ∈ rs, ∃ uidStr blob,
      r.binary = some [(p.binaryPropertyName.getD "data", blob)] ∧
      blob.mimeType = "message/rfc822" ∧
      blob.fileName = p.mailboxPath ++ "_" ++ uidStr ++ ".eml" ∧
      (p.emailUid ≠ "" → uidStr = p.emailUid) ∧
      (p.emailUid = "" → ∃ u : Nat, uidStr = toString u ∧
        FetchEvent.msg u blob.data ∈ c.fetch p.searchCriteria) := by
  intro r hr
  obtain ⟨uidStr, src, hshape, hsingle, hbulk⟩ :=
    executeImapAction_ok_shape p idx c rs hok r hr
  subst hshape
  rw [hb]
  refine ⟨uidStr,
    prepareBinaryData src (p.mailboxPath ++ "_" ++ uidStr ++ ".eml") "message/rfc822",
    rfl, rfl, rfl, hsingle, ?_⟩
  intro h
  obtain ⟨u, hu, hmem⟩ := hbulk h
  exact ⟨u, hu, hmem⟩

/-- Witness for C5 (amended): the binary record for uid `"42"` carries the
filename `INBOX_42.eml` and type `message/rfc822`. -/
theorem C5_amended_filename_witness :
    singleBinaryParams.outputToBinary = true ∧
    executeImapAction singleBinaryParams 0 singleMessageClient =
      Except.ok [shapeRecord true "data" "INBOX" "42" [70, 114] 0] ∧
    ∀ r ∈ [shapeRecord true "data" "INBOX" "42" [70, 114] 0], ∃ uidStr blob,
      r.binary = some [(singleBinaryParams.binaryPropertyName.getD "data", blob)] ∧
      blob.mimeType = "message/rfc822" ∧
      blob.fileName = singleBinaryParams.mailboxPath ++ "_" ++ uidStr ++ ".eml" ∧
      (singleBinaryParams.emailUid ≠ "" → uidStr = singleBinaryParams.emailUid) ∧
      (singleBinaryParams.emailUid = "" → ∃ u : Nat, uidStr = toString u ∧
        FetchEvent.msg u blob.data ∈
          singleMessageClient.fetch singleBinaryParams.searchCriteria) :=
  ⟨rfl, rfl,
    C5_amended_filename singleBinaryParams 0 singleMessageClient
      [shapeRecord true "data" "INBOX" "42" [70, 114] 0] rfl rfl⟩

/-- **C6.** When `messageId` is non-empty the search criteria are ignored:
two invocations differing only in their search-criteria parameters, with
the same non-empty `emailUid` and the same client, produce identical
output. -/
theorem C6_search_criteria_ignored (p1 p2 : NodeParams) (idx : Nat) (c : ImapClient)
    (huid : p1.emailUid ≠ "")
    (he : p1.emailUid = p2.emailUid)
    (hm : p1.mailboxPath = p2.mailboxPath)
    (hb : p1.outputToBinary = p2.outputToBinary)
    (hn : p1.binaryPropertyName = p2.binaryPropertyName) :
    executeImapAction p1 idx c = executeImapAction p2 idx c := by
  unfold executeImapAction
  cases hopen : c.mailboxOpenError with
  | some e => rfl
  | none =>
    simp only
    rw [if_pos huid, if_pos (he ▸ huid), ← he, ← hm, ← hb, ← hn]

/-- Witness for C6: changing the search criteria of the uid-42 request
leaves the output unchanged. -/
theorem C6_search_criteria_ignored_witness :
    singleBinaryParams.emailUid ≠ "" ∧
    singleBinaryParams.emailUid = singleBinaryParamsAlt.emailUid ∧
    singleBinaryParams.searchCriteria ≠ singleBinaryParamsAlt.searchCriteria ∧
    executeImapAction singleBinaryParams 0 singleMessageClient =
      executeImapAction singleBinaryParamsAlt 0 singleMessageClient :=
  ⟨by simp [singleBinaryParams], rfl, by decide,
    C6_search_criteria_ignored singleBinaryParams singleBinaryParamsAlt 0
      singleMessageClient (by simp [singleBinaryParams]) rfl rfl rfl rfl⟩

/-- **C7.** If the bulk-mode fetch stream raises an error after some
messages have already been processed, the whole invocation fails with that
error and no output records are returned. -/
theorem C7_midstream_error_fails (p : NodeParams) (idx : Nat) (c : ImapClient)
    (ms : List (Nat × List Nat)) (e : String) (rest : List FetchEvent)
    (hopen : c.mailboxOpenError = none)
    (huid : p.emailUid = "")
    (hstream : c.fetch p.searchCriteria =
      (ms.map fun m => FetchEvent.msg m.1 m.2) ++ FetchEvent.err e :: rest) :
    executeImapAction p idx c = Except.error (ImapError.clientError e) := by
  unfold executeImapAction
  rw [hopen]
  simp only
  rw [if_neg (by simp [huid]), hstream, runFetchLoop_err_event]

/-- Witness for C7: a stream delivering uid 5 and then failing makes the
whole invocation fail with that error. -/
theorem C7_midstream_error_fails_witness :
    errorStreamClient.mailboxOpenError = none ∧
    bulkTextParams.emailUid = "" ∧
    errorStreamClient.fetch bulkTextParams.searchCriteria =
      (([(5, [104])] : List (Nat × List Nat)).map fun m => FetchEvent.msg m.1 m.2) ++
        FetchEvent.err "connection reset" :: [] ∧
    executeImapAction bulkTextParams 0 errorStreamClient =
      Except.error (ImapError.clientError "connection reset") :=
  ⟨rfl, rfl, rfl,
    C7_midstream_error_fails bulkTextParams 0 errorStreamClient
      [(5, [104])] "connection reset" [] rfl rfl rfl⟩

/-- **C8 counterexample.** A binary-mode request with no
`binaryPropertyName` supplied is not rejected: `executeImapAction`
processes it and returns a record whose binary field is keyed by the
fallback default `"data"`. -/
theorem C8_counterexample :
    missingFieldParams.outputToBinary = true ∧
    missingFieldParams.binaryPropertyName = none ∧
    executeImapAction missingFieldParams 0 singleMessageClient =
      Except.ok [shapeRecord true "data" "INBOX" "42" [70, 114] 0] :=
  ⟨rfl, rfl, rfl⟩

/-- **C8 amended.** The `binaryPropertyName` parameter is declared
`required` and is displayed exactly when binary output mode is selected
(enforcement of `required` belongs to the host framework);
`executeImapAction` itself does not reject a missing binary field name but
substitutes the declared default `"data"` and processes the request. -/
theorem C8_amended_default_field (p : NodeParams) (idx : Nat) (c : ImapClient)
    (h : p.binaryPropertyName = none) :
    binaryPropertyNameParam.required = true ∧
    binaryPropertyNameParam.displayedWhenOutputToBinary = true ∧
    binaryPropertyNameParam.defaultValue = "data" ∧
    executeImapAction p idx c =
      executeImapAction { p with binaryPropertyName := some "data" } idx c := by
  refine ⟨rfl, rfl, rfl, ?_⟩
  obtain ⟨mb, eu, ob, bpn, sc⟩ := p
  have hb : bpn = none := h
  subst hb
  rfl

/-- Witness for C8 (amended): the fieldless request behaves exactly as the
same request with the default field name `"data"`. -/
theorem C8_amended_default_field_witness :
    missingFieldParams.binaryPropertyName = none ∧
    binaryPropertyNameParam.required = true ∧
    binaryPropertyNameParam.displayedWhenOutputToBinary = true ∧
    binaryPropertyNameParam.defaultValue = "data" ∧
    executeImapAction missingFieldParams 0 singleMessageClient =
      executeImapAction { missingFieldParams with binaryPropertyName := some "data" }
        0 singleMessageClient :=
  ⟨rfl,
    C8_amended_default_field missingFieldParams 0 singleMessageClient rfl⟩

/-- **C9.** On the single-UID path the dual-mode implementation refines
the original one: for every invocation with a non-empty `emailUid` where
the client returns a message with non-empty raw source, both
implementations produce identical output, and (when the mailbox opens)
that output is the same single shaped record. -/
theorem C9_refines_original (p : NodeParams) (idx : Nat) (c : ImapClient)
    (m : FetchedMessage) (src : List Nat)
    (huid : p.emailUid ≠ "")
    (hone : c.fetchOne p.emailUid = some m)
    (hsrc : m.source = some src)
    (_hne : src ≠ []) :
    executeImapAction p idx c = executeImapActionOriginal p idx c ∧
    (c.mailboxOpenError = none →
      executeImapAction p idx c =
        Except.ok [shapeRecord p.outputToBinary (p.binaryPropertyName.getD "data")
          p.mailboxPath p.emailUid src idx]) := by
  constructor
  · unfold executeImapAction executeImapActionOriginal
    cases hopen : c.mailboxOpenError with
    | some e => rfl
    | none =>
      simp only
      rw [if_pos huid, hone]
      simp [hsrc]
  · intro hopen
    unfold executeImapAction
    rw [hopen]
    simp only
    rw [if_pos huid, hone]
    simp [hsrc]

/-- Witness for C9: on the uid-42 request both implementations return the
same binary record. -/
theorem C9_refines_original_witness :
    singleBinaryParams.emailUid ≠ "" ∧
    singleMessageClient.fetchOne singleBinaryParams.emailUid =
      some { uid := 42, source := some [70, 114] } ∧
    ([70, 114] : List Nat) ≠ [] ∧
    (executeImapAction singleBinaryParams 0 singleMessageClient =
      executeImapActionOriginal singleBinaryParams 0 singleMessageClient ∧
    (singleMessageClient.mailboxOpenError = none →
      executeImapAction singleBinaryParams 0 singleMessageClient =
        Except.ok [shapeRecord singleBinaryParams.outputToBinary
          (singleBinaryParams.binaryPropertyName.getD "data")
          singleBinaryParams.mailboxPath singleBinaryParams.emailUid [70, 114] 0])) :=
  ⟨by simp [singleBinaryParams], rfl, by simp,
    C9_refines_original singleBinaryParams 0 singleMessageClient
      { uid := 42, source := some [70, 114] } [70, 114]
      (by simp [singleBinaryParams]) rfl rfl (by simp)⟩

/-- **C10.** `executeImapAction` never returns an empty result: every
invocation either fails with an error or returns a list containing at
least one output record. -/
theorem C10_ok_nonempty (p : NodeParams) (idx : Nat) (c : ImapClient)
    (rs : List OutputRecord) (hok : executeImapAction p idx c = Except.ok rs) :
    rs ≠ [] := by
  unfold executeImapAction at hok
  cases hopen : c.mailboxOpenError with
  | some e => rw [hopen] at hok; exact absurd hok (by simp)
  | none =>
    rw [hopen] at hok
    simp only at hok
    by_cases huid : p.emailUid = ""
    · rw [if_neg (by simp [huid])] at hok
      cases hloop : runFetchLoop p.outputToBinary (p.binaryPropertyName.getD "data")
          p.mailboxPath idx (c.fetch p.searchCriteria) with
      | error e => rw [hloop] at hok; exact absurd hok (by simp)
      | ok rs0 =>
        rw [hloop] at hok
        simp only at hok
        by_cases hemp : rs0.isEmpty
        · rw [if_pos hemp] at hok; exact absurd hok (by simp)
        · rw [if_neg hemp] at hok
          simp only [Except.ok.injEq] at hok
          subst hok
          simpa [List.isEmpty_iff] using hemp
    · rw [if_pos huid] at hok
      cases hone : c.fetchOne p.emailUid with
      | none => rw [hone] at hok; exact absurd hok (by simp)
      | some m =>
        rw [hone] at hok
        simp only at hok
        cases hsrc : m.source with
        | none => rw [hsrc] at hok; exact absurd hok (by simp)
        | some src =>
          rw [hsrc] at hok
          simp only [Except.ok.injEq] at hok
          subst hok
          simp

/-- Witness for C10: the single successful uid-42 run returns a non-empty
list. -/
theorem C10_ok_nonempty_witness :
    executeImapAction singleBinaryParams 0 singleMessageClient =
      Except.ok [shapeRecord true "data" "INBOX" "42" [70, 114] 0] ∧
    ([shapeRecord true "data" "INBOX" "42" [70, 114] 0] : List OutputRecord) ≠ [] :=
  ⟨rfl,
    C10_ok_nonempty singleBinaryParams 0 singleMessageClient
      [shapeRecord true "data" "INBOX" "42" [70, 114] 0] rfl⟩

end ImapEml
